import Mathlib

/-!
Verification of the bootstrap entry point in `src/qt-main/main.cpp` of the
`myme` repository.

The file is a linear Qt bootstrap: it constructs a `QGuiApplication`, sets
application metadata, configures the icon theme and Quick style, calls two
externally defined bridge initializers, constructs a `QQmlApplicationEngine`,
registers import paths, connects a queued `objectCreated` callback, loads the
root QML document, and either returns `-1` (when `engine.rootObjects()` is
empty) or hands control to `app.exec()`.

The embedding renders one run of `main` as a trace of observable bootstrap
events together with a process exit status.  Everything the program receives
from its environment is collected in a `RunInput`: the command-line arguments,
the boolean results returned by the two opaque initializers, whether
`engine.load` produced a root object, the queued `objectCreated` deliveries
that the event loop would dispatch, and the value `app.exec()` would return if
no queued callback forces an exit.
-/

namespace MyMe

/-- Qt connection types relevant to `QObject::connect` (`Qt::ConnectionType`).
The source passes `Qt::QueuedConnection` at main.cpp:50. -/
inductive ConnType where
  | auto
  | direct
  | queued
  deriving DecidableEq, Repr

/-- Observable bootstrap events performed by `main` (main.cpp:13-58), in the
order the statements execute.  Each constructor corresponds to one call in the
source; string arguments carry the literal arguments of the call. -/
inductive Event where
  | constructApp (args : List String)
  | setApplicationName (s : String)
  | setOrganizationName (s : String)
  | setApplicationVersion (s : String)
  | setIconThemeName (s : String)
  | setQuickStyle (s : String)
  | callInitCrateMymeUi
  | callInitializeNoteModel (baseUrl : String)
  | constructEngine
  | addImportPath (p : String)
  | connectObjectCreated (ctype : ConnType)
  | loadUrl (u : String)
  | enterEventLoop
  deriving DecidableEq, Repr

/-- Everything one run of `main` receives from its environment:
`args` are the command-line arguments (`argc`/`argv`);
`initCrateOk` is the boolean returned by `cxx_qt_init_crate_myme_ui()`;
`initNoteOk` is the boolean returned by `initialize_note_model(...)`;
`loadProducesRoot` says whether `engine.rootObjects()` is non-empty after
`engine.load(url)` (main.cpp:55);
`callbacks` are the queued `objectCreated` deliveries the event loop would
dispatch, each a pair of (object is non-null, object URL);
`execResult` is the value `app.exec()` returns when no queued callback forces
an exit. -/
structure RunInput where
  args : List String
  initCrateOk : Bool
  initNoteOk : Bool
  loadProducesRoot : Bool
  callbacks : List (Bool × String)
  execResult : Int
  deriving DecidableEq, Repr

/-- The root-document URL requested at main.cpp:41. -/
def requestedUrl : String := "qrc:/crates/myme-ui/qml/Main.qml"

/-- The hardcoded service base URL passed to `initialize_note_model`
at main.cpp:32. -/
def noteModelBaseUrl : String := "http://localhost:8008"

/-- The lambda connected to `objectCreated` at main.cpp:46-49:
`if (!obj && url == objUrl) QCoreApplication::exit(-1);`.
The body has no effect other than possibly requesting process exit, so the
embedding renders it as a pure function returning the requested exit code,
if any.  `url` is the captured requested URL, `objNonNull` tells whether the
`QObject *obj` argument is non-null, `objUrl` is the callback URL argument. -/
def objectCreatedCallback (url : String) (objNonNull : Bool)
    (objUrl : String) : Option Int :=
  if !objNonNull && (url == objUrl) then some (-1) else none

/-- The event loop entered by `app.exec()` (main.cpp:58), restricted to the
effects visible from this file: it dispatches the queued `objectCreated`
deliveries in order; the first one whose callback requests an exit code makes
`exec` return that code, and if none does, `exec` returns `execResult`. -/
def runEventLoop (url : String) (cbs : List (Bool × String))
    (execResult : Int) : Int :=
  match cbs with
  | [] => execResult
  | (n, u) :: rest =>
    match objectCreatedCallback url n u with
    | some c => c
    | none => runEventLoop url rest execResult

/-- The straight-line statement sequence of `main` up to and including
`engine.load(url)` (main.cpp:15-53), as a trace of events. -/
def bootTrace (args : List String) : List Event :=
  [ .constructApp args,
    .setApplicationName "MyMe",
    .setOrganizationName "MyMe",
    .setApplicationVersion "0.1.0",
    .setIconThemeName "breeze",
    .setQuickStyle "Basic",
    .callInitCrateMymeUi,
    .callInitializeNoteModel noteModelBaseUrl,
    .constructEngine,
    .addImportPath ":/qt/qml",
    .addImportPath "qrc:/",
    .connectObjectCreated .queued,
    .loadUrl requestedUrl ]

/-- The observable outcome of one run of `main`: the event trace and the
process exit status. -/
structure RunResult where
  trace : List Event
  exitStatus : Int
  deriving DecidableEq, Repr

/-- One run of `main` (main.cpp:13-59): the bootstrap sequence executes
unconditionally; if `engine.rootObjects()` is empty after the load, `main`
returns `-1` without entering the event loop (main.cpp:55-56); otherwise
`app.exec()` runs the event loop and its value is returned (main.cpp:58). -/
def main (input : RunInput) : RunResult :=
  let tr := bootTrace input.args
  if input.loadProducesRoot then
    { trace := tr ++ [.enterEventLoop],
      exitStatus := runEventLoop requestedUrl input.callbacks input.execResult }
  else
    { trace := tr, exitStatus := -1 }

/-- The application-global settings touched by the bootstrap: the
`QGuiApplication` metadata strings, the `QIcon` theme name, and the
`QQuickStyle` style. -/
structure AppState where
  applicationName : String
  organizationName : String
  applicationVersion : String
  iconThemeName : String
  quickStyle : String
  deriving DecidableEq, Repr

/-- Settings before any of the bootstrap setters has run. -/
def initialAppState : AppState :=
  { applicationName := ""
    organizationName := ""
    applicationVersion := ""
    iconThemeName := ""
    quickStyle := "" }

/-- Effect of one event on the application-global settings; events other than
the five setters leave them unchanged. -/
def applyEvent (s : AppState) : Event → AppState
  | .setApplicationName v => { s with applicationName := v }
  | .setOrganizationName v => { s with organizationName := v }
  | .setApplicationVersion v => { s with applicationVersion := v }
  | .setIconThemeName v => { s with iconThemeName := v }
  | .setQuickStyle v => { s with quickStyle := v }
  | _ => s

/-- Settings after a trace of events has run. -/
def stateAfter (tr : List Event) : AppState :=
  tr.foldl applyEvent initialAppState

/-- Recognizes the `enterEventLoop` event. -/
def isEnterEventLoop : Event → Bool
  | .enterEventLoop => true
  | _ => false

/-- The application-global settings at the moment `app.exec()` starts: the
state produced by the part of the trace strictly before `enterEventLoop`. -/
def stateAtEventLoopStart (input : RunInput) : AppState :=
  stateAfter ((main input).trace.takeWhile (fun e => !isEnterEventLoop e))

/-- Whether the engine produced no root object for the requested document, by
either detection path of the source: the synchronous `rootObjects().isEmpty()`
check, or a queued `objectCreated` delivery carrying a null object for the
requested URL. -/
def loadFailed (input : RunInput) : Bool :=
  !input.loadProducesRoot ||
    input.callbacks.any (fun p => !p.1 && (requestedUrl == p.2))

/-- Recognizes the `initialize_note_model` call event. -/
def isInitNoteEvent : Event → Bool
  | .callInitializeNoteModel _ => true
  | _ => false

/-- Recognizes the `QObject::connect` event. -/
def isConnectEvent : Event → Bool
  | .connectObjectCreated _ => true
  | _ => false

/-- Recognizes the events named by the bootstrap-order claim: application
construction, the three metadata setters, icon theme and style configuration,
the two bridge initializers, engine construction, and the root-document
load. -/
def isBootstrapEvent : Event → Bool
  | .constructApp _ => true
  | .setApplicationName _ => true
  | .setOrganizationName _ => true
  | .setApplicationVersion _ => true
  | .setIconThemeName _ => true
  | .setQuickStyle _ => true
  | .callInitCrateMymeUi => true
  | .callInitializeNoteModel _ => true
  | .constructEngine => true
  | .loadUrl _ => true
  | _ => false

/-- Recognizes the icon-theme and style setters, the bridge initializers, and
engine construction. -/
def isStyleOrInitOrEngineEvent : Event → Bool
  | .setIconThemeName _ => true
  | .setQuickStyle _ => true
  | .callInitCrateMymeUi => true
  | .callInitializeNoteModel _ => true
  | .constructEngine => true
  | _ => false

/-- If some queued delivery carries a null object for the requested URL, the
event loop exits with code `-1` (every exit the callback can request is
`-1`). -/
theorem runEventLoop_fail (cbs : List (Bool × String)) (r : Int)
    (h : cbs.any (fun p => !p.1 && (requestedUrl == p.2)) = true) :
    runEventLoop requestedUrl cbs r = -1 := by
  induction cbs with
  | nil => simp at h
  | cons hd tl ih =>
    obtain ⟨n, u⟩ := hd
    simp only [List.any_cons] at h
    by_cases hc : (!n && (requestedUrl == u)) = true
    · simp [runEventLoop, objectCreatedCallback, hc]
    · simp only [hc, Bool.false_or] at h
      simp [runEventLoop, objectCreatedCallback, hc, ih h]

/-- If no queued delivery carries a null object for the requested URL, the
event loop runs to completion and `exec` returns `execResult`. -/
theorem runEventLoop_ok (cbs : List (Bool × String)) (r : Int)
    (h : cbs.any (fun p => !p.1 && (requestedUrl == p.2)) = false) :
    runEventLoop requestedUrl cbs r = r := by
  induction cbs with
  | nil => rfl
  | cons hd tl ih =>
    obtain ⟨n, u⟩ := hd
    simp only [List.any_cons, Bool.or_eq_false_iff] at h
    simp [runEventLoop, objectCreatedCallback, h.1, ih h.2]

/-- C1 (counterexample): as stated, the claim that the process exits with
status `-1` exactly when the engine produces no root object is false: on a run
where the load succeeds, no queued failure delivery arrives, and `app.exec()`
itself returns `-1`, the process exits with `-1` although no load failure
occurred. -/
theorem exit_minus_one_without_failure :
    (main { args := []
            initCrateOk := true
            initNoteOk := true
            loadProducesRoot := true
            callbacks := []
            execResult := -1 }).exitStatus = -1 ∧
    loadFailed { args := []
                 initCrateOk := true
                 initNoteOk := true
                 loadProducesRoot := true
                 callbacks := []
                 execResult := -1 } = false := by
  constructor
  · rfl
  · rfl

/-- C1 (amended): whenever the engine produces no root object for the root
document — detected synchronously (`rootObjects()` empty after `engine.load`)
or via a queued `objectCreated` delivery with a null object for the requested
URL — the process exits with status `-1`; when no such failure occurs, the
exit status is the value returned by `app.exec()` (which is not itself
guaranteed to differ from `-1`). -/
theorem exit_status_spec (input : RunInput) :
    (loadFailed input = true → (main input).exitStatus = -1) ∧
    (loadFailed input = false → (main input).exitStatus = input.execResult) := by
  cases hload : input.loadProducesRoot with
  | false =>
    constructor
    · intro _
      simp [main, hload]
    · intro hfail
      simp [loadFailed, hload] at hfail
  | true =>
    constructor
    · intro hfail
      simp only [loadFailed, hload, Bool.not_true, Bool.false_or] at hfail
      simp [main, hload, runEventLoop_fail _ _ hfail]
    · intro hfail
      simp only [loadFailed, hload, Bool.not_true, Bool.false_or] at hfail
      simp [main, hload, runEventLoop_ok _ _ hfail]

/-- C1 (witness): on a run where the load fails synchronously, the exit status
is `-1`. -/
theorem exit_status_spec_witness :
    loadFailed { args := ["myme"]
                 initCrateOk := true
                 initNoteOk := true
                 loadProducesRoot := false
                 callbacks := []
                 execResult := 0 } = true ∧
    (main { args := ["myme"]
            initCrateOk := true
            initNoteOk := true
            loadProducesRoot := false
            callbacks := []
            execResult := 0 }).exitStatus = -1 :=
  ⟨by decide, (exit_status_spec _).1 (by decide)⟩

/-- C2: on every run where the root document cannot be loaded (no root object
after `engine.load`), the exit status is negative and the event loop is never
entered. -/
theorem no_root_exits_negative (input : RunInput)
    (h : input.loadProducesRoot = false) :
    (main input).exitStatus < 0 ∧
    Event.enterEventLoop ∉ (main input).trace := by
  constructor
  · simp [main, h]
  · simp [main, h, bootTrace, requestedUrl, noteModelBaseUrl]

/-- C2 (witness): concrete failing run. -/
theorem no_root_exits_negative_witness :
    (main { args := []
            initCrateOk := true
            initNoteOk := true
            loadProducesRoot := false
            callbacks := []
            execResult := 0 }).exitStatus < 0 ∧
    Event.enterEventLoop ∉ (main { args := []
                                   initCrateOk := true
                                   initNoteOk := true
                                   loadProducesRoot := false
                                   callbacks := []
                                   execResult := 0 }).trace :=
  no_root_exits_negative _ rfl

/-- C3: the `objectCreated` callback never requests exit when its URL argument
differs from the originally requested root-document URL. -/
theorem callback_guards_url (objNonNull : Bool) (objUrl : String)
    (h : objUrl ≠ requestedUrl) :
    objectCreatedCallback requestedUrl objNonNull objUrl = none := by
  have hb : (requestedUrl == objUrl) = false :=
    beq_eq_false_iff_ne.mpr (Ne.symm h)
  simp [objectCreatedCallback, hb]

/-- C3 (witness): a callback for an unrelated URL, even with a null object,
requests no exit. -/
theorem callback_guards_url_witness :
    "qrc:/other.qml" ≠ requestedUrl ∧
    objectCreatedCallback requestedUrl false "qrc:/other.qml" = none :=
  ⟨by decide, callback_guards_url false "qrc:/other.qml" (by decide)⟩

/-- C4: on every run where the root document loads successfully, the event
loop is entered, and at the moment it starts, the application name,
organization name, and version are "MyMe", "MyMe", and "0.1.0". -/
theorem metadata_set_before_exec (input : RunInput)
    (h : input.loadProducesRoot = true) :
    Event.enterEventLoop ∈ (main input).trace ∧
    (stateAtEventLoopStart input).applicationName = "MyMe" ∧
    (stateAtEventLoopStart input).organizationName = "MyMe" ∧
    (stateAtEventLoopStart input).applicationVersion = "0.1.0" := by
  refine ⟨?_, ?_, ?_, ?_⟩ <;>
    simp [main, h, stateAtEventLoopStart, stateAfter, bootTrace,
      applyEvent, isEnterEventLoop, initialAppState]

/-- C4 (witness): concrete successful run. -/
theorem metadata_set_before_exec_witness :
    Event.enterEventLoop ∈ (main { args := []
                                   initCrateOk := true
                                   initNoteOk := true
                                   loadProducesRoot := true
                                   callbacks := []
                                   execResult := 0 }).trace ∧
    (stateAtEventLoopStart { args := []
                             initCrateOk := true
                             initNoteOk := true
                             loadProducesRoot := true
                             callbacks := []
                             execResult := 0 }).applicationName = "MyMe" ∧
    (stateAtEventLoopStart { args := []
                             initCrateOk := true
                             initNoteOk := true
                             loadProducesRoot := true
                             callbacks := []
                             execResult := 0 }).organizationName = "MyMe" ∧
    (stateAtEventLoopStart { args := []
                             initCrateOk := true
                             initNoteOk := true
                             loadProducesRoot := true
                             callbacks := []
                             execResult := 0 }).applicationVersion = "0.1.0" :=
  metadata_set_before_exec _ rfl

/-- C5: on every run — whatever the command-line arguments and however the
load goes — `initialize_note_model` is called exactly once, with the hardcoded
base URL "http://localhost:8008". -/
theorem initialize_note_model_once (input : RunInput) :
    (main input).trace.filter isInitNoteEvent =
      [Event.callInitializeNoteModel "http://localhost:8008"] := by
  cases h : input.loadProducesRoot <;> simp [main, h] <;> rfl

/-- C6: on every run, the bootstrap events occur in source order: application
construction, then the three metadata setters, then icon theme and widget
style, then the two bridge initializers, then engine construction, then the
load of the bundled root document. -/
theorem bootstrap_order (input : RunInput) :
    (main input).trace.filter isBootstrapEvent =
      [Event.constructApp input.args,
       Event.setApplicationName "MyMe",
       Event.setOrganizationName "MyMe",
       Event.setApplicationVersion "0.1.0",
       Event.setIconThemeName "breeze",
       Event.setQuickStyle "Basic",
       Event.callInitCrateMymeUi,
       Event.callInitializeNoteModel "http://localhost:8008",
       Event.constructEngine,
       Event.loadUrl "qrc:/crates/myme-ui/qml/Main.qml"] := by
  cases h : input.loadProducesRoot <;> simp [main, h] <;> rfl

/-- C7: the only signal connection made by `main` is the `objectCreated` one,
and it is queued; and the connected callback does nothing except request
process exit with `-1`, exactly when the created object is null and the URL is
the requested one. -/
theorem queued_callback_only_detects_failure (input : RunInput) :
    (main input).trace.filter isConnectEvent =
      [Event.connectObjectCreated ConnType.queued] ∧
    ∀ (objNonNull : Bool) (objUrl : String),
      objectCreatedCallback requestedUrl objNonNull objUrl = none ∨
      (objectCreatedCallback requestedUrl objNonNull objUrl = some (-1) ∧
        objNonNull = false ∧ objUrl = requestedUrl) := by
  constructor
  · cases h : input.loadProducesRoot <;> simp [main, h] <;> rfl
  · intro objNonNull objUrl
    cases objNonNull with
    | true => exact Or.inl rfl
    | false =>
      by_cases hu : objUrl = requestedUrl
      · subst hu
        exact Or.inr ⟨by simp [objectCreatedCallback], rfl, rfl⟩
      · exact Or.inl (by
          have hb : (requestedUrl == objUrl) = false :=
            beq_eq_false_iff_ne.mpr (Ne.symm hu)
          simp [objectCreatedCallback, hb])

/-- C8: the boolean results of `cxx_qt_init_crate_myme_ui` and
`initialize_note_model` are discarded: two runs that differ only in those
results produce identical traces and exit statuses. -/
theorem init_results_discarded (i j : RunInput)
    (hargs : i.args = j.args)
    (hload : i.loadProducesRoot = j.loadProducesRoot)
    (hcb : i.callbacks = j.callbacks)
    (hexec : i.execResult = j.execResult) :
    main i = main j := by
  cases i
  cases j
  simp_all [main]

/-- C8 (witness): two concrete runs differing only in both initializer
results behave identically. -/
theorem init_results_discarded_witness :
    main { args := ["myme"]
           initCrateOk := true
           initNoteOk := true
           loadProducesRoot := true
           callbacks := []
           execResult := 0 } =
    main { args := ["myme"]
           initCrateOk := false
           initNoteOk := false
           loadProducesRoot := true
           callbacks := []
           execResult := 0 } :=
  init_results_discarded _ _ rfl rfl rfl rfl

/-- C9: on every run, the icon theme is set to "breeze" and the Quick style to
"Basic" before either bridge initializer is called and before the engine is
constructed (the filtered trace shows exactly this order, with no earlier
initializer or engine event). -/
theorem theme_and_style_before_init (input : RunInput) :
    (main input).trace.filter isStyleOrInitOrEngineEvent =
      [Event.setIconThemeName "breeze",
       Event.setQuickStyle "Basic",
       Event.callInitCrateMymeUi,
       Event.callInitializeNoteModel "http://localhost:8008",
       Event.constructEngine] := by
  cases h : input.loadProducesRoot <;> simp [main, h] <;> rfl

/-- C10: when the created object is non-null (successful load), the
`objectCreated` callback requests no exit at all, whatever its URL argument —
including the requested URL itself. -/
theorem callback_noop_on_success (objUrl : String) :
    objectCreatedCallback requestedUrl true objUrl = none := rfl

end MyMe
